import Mathlib

/-!
Shallow embedding of the Permem TypeScript SDK client
(`src/ts/src/client.ts` together with its type declarations) and proofs
about its configuration resolution, request construction, response
mapping and error classification.

The HTTP transport is modelled by an abstract `FetchOutcome`: either the
underlying `fetch` call throws (a transport failure carrying an opaque
message), or it returns a response with a numeric status and a body that
either parses as JSON (yielding the typed payload together with the
optional string `error` field read by the error path) or is unparsable.
-/

/-- JS `a || b` for an optional string `a`: `undefined` and the empty
string are falsy, as in the source's use of `||` for defaulting. -/
def jsOrStr : Option String → String → String
  | some s, d => if s = "" then d else s
  | none, d => d

/-- JS `a || b` for an optional number `a` modelled as a natural:
`undefined` and `0` are falsy. -/
def jsOrNat : Option Nat → Nat → Nat
  | some n, d => if n = 0 then d else n
  | none, d => d

/-- JS `a || b` for a (present) number `a` modelled as an integer:
`0` is falsy. Used for `response.stored_count || 0` and
`response.duplicates || 0`. -/
def jsOrInt (n d : Int) : Int :=
  if n = 0 then d else n

/-- JS `a || b` for an optional rational (the model of a JS float):
`undefined` and `0` are falsy. -/
def jsOrRat : Option ℚ → ℚ → ℚ
  | some q, d => if q = 0 then d else q
  | none, d => d

/-- JS `a || b` for an optional boolean: `undefined` and `false` are
falsy. Used for `options.async || false`. -/
def jsOrBool : Option Bool → Bool → Bool
  | some b, d => if b then b else d
  | none, d => d

/-- `DEFAULTS.url` from the source. -/
def DEFAULTS.url : String := "http://localhost:3333"

/-- `DEFAULTS.maxContextLength` from the source. -/
def DEFAULTS.maxContextLength : Nat := 8000

/-- `DEFAULTS.extractThreshold` from the source (`0.7`). -/
def DEFAULTS.extractThreshold : ℚ := 7 / 10

/-- Caller-supplied configuration (`PermemConfig`): every field optional. -/
structure PermemConfig where
  url : Option String
  apiKey : Option String
  maxContextLength : Option Nat
  extractThreshold : Option ℚ
deriving DecidableEq

/-- Resolved configuration (`ResolvedConfig`). -/
structure ResolvedConfig where
  url : String
  apiKey : Option String
  maxContextLength : Nat
  extractThreshold : ℚ
deriving DecidableEq

/-- The body of the `Permem` constructor: merge the caller-supplied
fields over `DEFAULTS` using JS `||` (so falsy supplied values fall back
to the defaults); `apiKey` is copied through unchanged. -/
def resolveConfig (config : PermemConfig) : ResolvedConfig :=
  ⟨jsOrStr config.url DEFAULTS.url,
   config.apiKey,
   jsOrNat config.maxContextLength DEFAULTS.maxContextLength,
   jsOrRat config.extractThreshold DEFAULTS.extractThreshold⟩

/-- The `Permem` client: holds the resolved configuration. -/
structure Permem where
  config : ResolvedConfig
deriving DecidableEq

/-- `new Permem(config)`. -/
def Permem.new (config : PermemConfig) : Permem :=
  ⟨resolveConfig config⟩

/-- `Permem.getConfig()`: returns (a copy of) the resolved configuration. -/
def Permem.getConfig (p : Permem) : ResolvedConfig :=
  p.config

/-- `ChatMessage`: role and content (the role union is modelled as a string). -/
structure ChatMessage where
  role : String
  content : String
deriving DecidableEq

/-- The `entities` field of a `Memory`. -/
structure Entities where
  people : List String
  places : List String
  organizations : List String
  things : List String
deriving DecidableEq

/-- A `Memory` object as deserialized from the API (string unions are
modelled as strings, JS numbers as rationals). -/
structure Memory where
  id : String
  summary : String
  type : String
  importance : String
  importanceScore : ℚ
  similarity : Option ℚ
  createdAt : String
  topics : Option (List String)
  emotions : Option (List String)
  entities : Option Entities
deriving DecidableEq

/-- Options for `memorize`. -/
structure MemorizeOptions where
  userId : String
  conversationId : Option String
  async : Option Bool
deriving DecidableEq

/-- Options for `recall` (`mode` is modelled as a plain string since the
client passes it through uninterpreted). -/
structure RecallOptions where
  userId : String
  limit : Option Nat
  mode : Option String
  conversationId : Option String
deriving DecidableEq

/-- Options for `inject`. -/
structure InjectOptions where
  userId : String
  contextLength : Option Nat
  conversationId : Option String
deriving DecidableEq

/-- Options for `extract`. -/
structure ExtractOptions where
  userId : String
  contextLength : Option Nat
  conversationId : Option String
  extractThreshold : Option ℚ
  async : Option Bool
deriving DecidableEq

/-- The `memory` payload of one raw `memorize` result entry. -/
structure RawMemory where
  id : String
  summary : String
  type : String
deriving DecidableEq

/-- One entry of the raw `memorize` response's `results` array: the
`memory` payload may be `null`. -/
structure RawResult where
  action : String
  memory : Option RawMemory
deriving DecidableEq

/-- The raw `memorize` response. -/
structure MemorizeRaw where
  stored : Bool
  stored_count : Int
  duplicates : Int
  results : List RawResult
deriving DecidableEq

/-- One entry of the mapped `MemorizeResponse.memories` list. -/
structure MemoryEntry where
  id : String
  summary : String
  type : String
  action : String
deriving DecidableEq

/-- The mapped `MemorizeResponse`. -/
structure MemorizeResponse where
  stored : Bool
  count : Int
  memories : List MemoryEntry
  duplicates : Int
deriving DecidableEq

/-- The raw (and mapped) `recall` response payload. -/
structure RecallRaw where
  memories : List Memory
deriving DecidableEq

/-- The `RecallResponse` returned to the caller. -/
structure RecallResponse where
  memories : List Memory
deriving DecidableEq

/-- The `InjectResponse`, returned verbatim from the server. -/
structure InjectResponse where
  memories : List Memory
  injectionText : String
  shouldInject : Bool
deriving DecidableEq

/-- One entry of `ExtractResponse.extracted`. -/
structure ExtractedEntry where
  id : String
  summary : String
  type : String
  action : String
deriving DecidableEq

/-- The `ExtractResponse`, returned verbatim from the server. -/
structure ExtractResponse where
  shouldExtract : Bool
  extracted : List ExtractedEntry
  skippedDuplicates : List String
deriving DecidableEq

/-- The `/health` response payload. -/
structure HealthRaw where
  status : String
deriving DecidableEq

/-- The headers built by `Permem.request`: `Content-Type` always, plus
`x-api-key` when the configured `apiKey` is truthy (`if (this.config.apiKey)`). -/
def buildHeaders (cfg : ResolvedConfig) : List (String × String) :=
  [("Content-Type", "application/json")] ++
    (match cfg.apiKey with
     | some k => if k = "" then [] else [("x-api-key", k)]
     | none => [])

/-- Hex digit (uppercase) of a value below 16, for percent-encoding. -/
def hexDigit (n : Nat) : Char :=
  if n < 10 then Char.ofNat (48 + n) else Char.ofNat (55 + n)

/-- Percent-encoding of one byte, e.g. `%3F`. -/
def percentByte (b : UInt8) : String :=
  "%" ++ String.singleton (hexDigit (b.toNat / 16)) ++
    String.singleton (hexDigit (b.toNat % 16))

/-- Characters serialized verbatim by `URLSearchParams.toString()`
(`application/x-www-form-urlencoded`): ASCII alphanumerics and `*-._`. -/
def isFormSafe (c : Char) : Bool :=
  c.isAlphanum || c = '*' || c = '-' || c = '.' || c = '_'

/-- Form-url-encoding of one character: safe characters verbatim, space
as `+`, everything else as percent-encoded UTF-8 bytes. -/
def encodeFormChar (c : Char) : String :=
  if isFormSafe c then String.singleton c
  else if c = ' ' then "+"
  else String.join (((String.singleton c).toUTF8.toList).map percentByte)

/-- Form-url-encoding of a string, as `URLSearchParams.toString()` does. -/
def encodeForm (s : String) : String :=
  String.join (s.toList.map encodeFormChar)

/-- `URLSearchParams.toString()`: `k=v` pairs, both sides form-encoded,
joined by `&`. -/
def paramsToString (ps : List (String × String)) : String :=
  String.intercalate "&" (ps.map (fun p => encodeForm p.1 ++ "=" ++ encodeForm p.2))

/-- `params.set(key, n.toString())` guarded by JS truthiness of an
optional numeric option (`if (options.limit) ...`). All keys set by
`recall` are distinct, so `set` amounts to appending the pair. -/
def setParamNat (ps : List (String × String)) (key : String) :
    Option Nat → List (String × String)
  | some n => if n = 0 then ps else ps ++ [(key, toString n)]
  | none => ps

/-- `params.set(key, s)` guarded by JS truthiness of an optional string
option. -/
def setParamStr (ps : List (String × String)) (key : String) :
    Option String → List (String × String)
  | some s => if s = "" then ps else ps ++ [(key, s)]
  | none => ps

/-- A single HTTP request as handed to `fetch` by `Permem.request`:
method, full URL, headers, and the JSON body (absent for GET). -/
structure RequestSpec (β : Type) where
  method : String
  url : String
  headers : List (String × String)
  body : Option β
deriving DecidableEq

/-- The JSON body of the `memorize` POST. -/
structure MemorizeBody where
  content : String
  userId : String
  conversationId : Option String
  async : Bool
deriving DecidableEq

/-- The JSON body of the `inject` POST. -/
structure InjectBody where
  message : String
  userId : String
  conversationId : Option String
  contextLength : Nat
  maxContextLength : Nat
deriving DecidableEq

/-- The JSON body of the `extract` POST. -/
structure ExtractBody where
  messages : List ChatMessage
  userId : String
  conversationId : Option String
  contextLength : Nat
  maxContextLength : Nat
  extractThreshold : ℚ
  async : Bool
deriving DecidableEq

/-- `Permem.estimateTokens`: join the message contents with a single
space and take `Math.ceil(length / 4)`, written as natural-number
ceiling division `(length + 3) / 4`. -/
def estimateTokens (messages : List ChatMessage) : Nat :=
  let text := String.intercalate " " (messages.map ChatMessage.content)
  (text.length + 3) / 4

/-- The body object built by `memorize`. -/
def memorizeBody (content : String) (o : MemorizeOptions) : MemorizeBody :=
  ⟨content, o.userId, o.conversationId, jsOrBool o.async false⟩

/-- The request issued by `memorize(content, options)`. -/
def Permem.memorizeReq (p : Permem) (content : String) (o : MemorizeOptions) :
    RequestSpec MemorizeBody :=
  ⟨"POST", p.config.url ++ "/v1/memories", buildHeaders p.config,
   some (memorizeBody content o)⟩

/-- The fetches performed by one `memorize` call: the method calls
`this.request` once, which calls `fetch` exactly once. -/
def Permem.memorizeRequests (p : Permem) (content : String) (o : MemorizeOptions) :
    List (RequestSpec MemorizeBody) :=
  [p.memorizeReq content o]

/-- The `URLSearchParams` built by `recall`. -/
def recallParams (query : String) (o : RecallOptions) : List (String × String) :=
  setParamStr
    (setParamStr
      (setParamNat [("q", query), ("userId", o.userId)] "limit" o.limit)
      "mode" o.mode)
    "conversationId" o.conversationId

/-- The request issued by `recall(query, options)`. -/
def Permem.recallReq (p : Permem) (query : String) (o : RecallOptions) :
    RequestSpec Unit :=
  ⟨"GET", p.config.url ++ "/v1/memories/search?" ++ paramsToString (recallParams query o),
   buildHeaders p.config, none⟩

/-- The fetches performed by one `recall` call: exactly one. -/
def Permem.recallRequests (p : Permem) (query : String) (o : RecallOptions) :
    List (RequestSpec Unit) :=
  [p.recallReq query o]

/-- The body object built by `inject`. -/
def Permem.injectBody (p : Permem) (message : String) (o : InjectOptions) :
    InjectBody :=
  ⟨message, o.userId, o.conversationId, jsOrNat o.contextLength 0,
   p.config.maxContextLength⟩

/-- The request issued by `inject(message, options)`. -/
def Permem.injectReq (p : Permem) (message : String) (o : InjectOptions) :
    RequestSpec InjectBody :=
  ⟨"POST", p.config.url ++ "/v1/auto/inbound", buildHeaders p.config,
   some (p.injectBody message o)⟩

/-- The body object built by `extract`. -/
def Permem.extractBody (p : Permem) (messages : List ChatMessage)
    (o : ExtractOptions) : ExtractBody :=
  ⟨messages, o.userId, o.conversationId,
   jsOrNat o.contextLength (estimateTokens messages),
   p.config.maxContextLength,
   jsOrRat o.extractThreshold p.config.extractThreshold,
   jsOrBool o.async false⟩

/-- The request issued by `extract(messages, options)`. -/
def Permem.extractReq (p : Permem) (messages : List ChatMessage)
    (o : ExtractOptions) : RequestSpec ExtractBody :=
  ⟨"POST", p.config.url ++ "/v1/auto/outbound", buildHeaders p.config,
   some (p.extractBody messages o)⟩

/-- The request issued by `health()`. -/
def Permem.healthReq (p : Permem) : RequestSpec Unit :=
  ⟨"GET", p.config.url ++ "/health", buildHeaders p.config, none⟩

/-- `PermemError`: message plus optional HTTP status code. -/
structure PermemError where
  message : String
  statusCode : Option Nat
deriving DecidableEq

/-- What `response.json()` yields on a given response: either the body
parses as JSON — giving the typed payload used on the success path and
the optional string `error` field read on the error path — or parsing
fails. -/
inductive ParsedBody (α : Type) where
  | json (payload : α) (errorField : Option String)
  | unparsable
deriving DecidableEq

/-- The outcome of the single `fetch` call inside `Permem.request`:
either `fetch` itself throws (transport failure), or a response arrives
with a status and a body. -/
inductive FetchOutcome (α : Type) where
  | fetchThrow (e : String)
  | resp (status : Nat) (body : ParsedBody α)
deriving DecidableEq

/-- How a `Permem.request` call can fail: the transport error propagated
unchanged, a rejected `response.json()` on a 2xx response, or a
classified `PermemError` thrown for a non-2xx response. -/
inductive RequestFailure where
  | transport (e : String)
  | parseFailure
  | classified (e : PermemError)
deriving DecidableEq

/-- `Response.ok`: status in the range 200–299. -/
def responseOk (status : Nat) : Bool :=
  200 ≤ status && status ≤ 299

/-- `Permem.request`: maps the fetch outcome to the typed payload or a
failure. A thrown fetch propagates unchanged; on a non-2xx response the
body is re-read as JSON with `.catch(() => ({ error: 'Unknown error' }))`
and a `PermemError` is thrown whose message is `error.error || 'HTTP ' +
status` and whose status code is the HTTP status; on a 2xx response the
parsed payload is returned (a failed parse rejects). -/
def Permem.request {α : Type} (out : FetchOutcome α) : Except RequestFailure α :=
  match out with
  | .fetchThrow e => .error (.transport e)
  | .resp status body =>
    if responseOk status then
      match body with
      | .json payload _ => .ok payload
      | .unparsable => .error .parseFailure
    else
      let errField : Option String :=
        match body with
        | .json _ e => e
        | .unparsable => some "Unknown error"
      .error (.classified ⟨jsOrStr errField ("HTTP " ++ toString status), some status⟩)

/-- The response mapping performed by `memorize`: copy `stored`, default
`stored_count` and `duplicates` with `|| 0`, and keep only the result
entries whose `memory` payload is non-null, each mapped to
`{id, summary, type, action}` (the filter-then-map with non-null
assertion of the source is written as `filterMap`). -/
def memorizeMap (r : MemorizeRaw) : MemorizeResponse :=
  ⟨r.stored,
   jsOrInt r.stored_count 0,
   r.results.filterMap (fun e =>
     e.memory.map (fun m => (⟨m.id, m.summary, m.type, e.action⟩ : MemoryEntry))),
   jsOrInt r.duplicates 0⟩

/-- The result of one `memorize` call given the outcome of its fetch. -/
def Permem.memorizeRun (out : FetchOutcome MemorizeRaw) :
    Except RequestFailure MemorizeResponse :=
  (Permem.request out).map memorizeMap

/-- The result of one `recall` call given the outcome of its fetch:
`{ memories: response.memories }`. -/
def Permem.recallRun (out : FetchOutcome RecallRaw) :
    Except RequestFailure RecallResponse :=
  (Permem.request out).map (fun r => ⟨r.memories⟩)

/-- The result of one `inject` call given the outcome of its fetch: the
response is returned verbatim. -/
def Permem.injectRun (out : FetchOutcome InjectResponse) :
    Except RequestFailure InjectResponse :=
  Permem.request out

/-- The result of one `extract` call given the outcome of its fetch: the
response is returned verbatim. -/
def Permem.extractRun (out : FetchOutcome ExtractResponse) :
    Except RequestFailure ExtractResponse :=
  Permem.request out

/-- `health()`: `response.status === 'ok'` on success, and every failure
of the surrounding `try` is caught and turned into `false`. -/
def Permem.healthRun (out : FetchOutcome HealthRaw) : Bool :=
  match Permem.request out with
  | .ok r => r.status == "ok"
  | .error _ => false

/-- Spec-side restatement of the classified error message actually
produced for a non-2xx response: the body's `error` field when the body
parses as JSON with a non-empty `error` field, the fixed string
`"Unknown error"` when the body is unparsable, and `"HTTP <status>"`
when the body parses but its `error` field is absent or empty. -/
def classifiedMessage {α : Type} (status : Nat) (body : ParsedBody α) : String :=
  match body with
  | .json _ (some e) => if e = "" then "HTTP " ++ toString status else e
  | .json _ none => "HTTP " ++ toString status
  | .unparsable => "Unknown error"

/-- Spec-side ceiling of `n / 4` ("divide character count by 4, round
up"), written from the spec's words for comparison with
`estimateTokens`. -/
def ceilDiv4 (n : Nat) : Nat :=
  n / 4 + (if n % 4 = 0 then 0 else 1)

/-- JS `n || 0` on an integer is the identity. -/
theorem jsOrInt_zero (n : Int) : jsOrInt n 0 = n := by
  unfold jsOrInt
  split <;> omega

/-- JS `n || 0` on an optional natural agrees with `Option.getD 0`. -/
theorem jsOrNat_getD (o : Option Nat) : jsOrNat o 0 = o.getD 0 := by
  cases o with
  | none => rfl
  | some n =>
    simp only [jsOrNat, Option.getD]
    split <;> omega

/-- The `filterMap` used by `memorizeMap` equals the source's
filter-then-map-with-non-null-assertion, read off the kept entries. -/
theorem filterMap_results (rs : List RawResult) :
    rs.filterMap (fun e =>
        e.memory.map (fun m => (⟨m.id, m.summary, m.type, e.action⟩ : MemoryEntry))) =
      (rs.filter (fun r => r.memory.isSome)).map (fun r =>
        ⟨(r.memory.getD ⟨"", "", ""⟩).id, (r.memory.getD ⟨"", "", ""⟩).summary,
         (r.memory.getD ⟨"", "", ""⟩).type, r.action⟩) := by
  induction rs with
  | nil => rfl
  | cons a as ih =>
    cases h : a.memory with
    | none => simp [List.filterMap_cons, List.filter_cons, h, ih]
    | some m => simp [List.filterMap_cons, List.filter_cons, h, ih]

/-- `estimateTokens` computes exactly the ceiling of the joined length
divided by 4. -/
theorem estimateTokens_eq_ceilDiv4 (messages : List ChatMessage) :
    estimateTokens messages =
      ceilDiv4 (String.intercalate " " (messages.map ChatMessage.content)).length := by
  have h : estimateTokens messages =
      ((String.intercalate " " (messages.map ChatMessage.content)).length + 3) / 4 := rfl
  rw [h]
  unfold ceilDiv4
  generalize (String.intercalate " " (messages.map ChatMessage.content)).length = n
  by_cases h4 : n % 4 = 0 <;> simp [h4] <;> omega

/-- C4: configuration resolution treats any falsy supplied value as
absent — url `""` resolves to the default URL, maxContextLength `0`
resolves to 8000, and extractThreshold `0` resolves to 0.7. -/
theorem falsyConfig_resolvesToDefaults :
    (Permem.new ⟨some "", none, none, none⟩).getConfig.url = "http://localhost:3333" ∧
    (Permem.new ⟨none, none, some 0, none⟩).getConfig.maxContextLength = 8000 ∧
    (Permem.new ⟨none, none, none, some 0⟩).getConfig.extractThreshold = 7 / 10 := by
  refine ⟨rfl, rfl, ?_⟩
  simp [Permem.new, Permem.getConfig, resolveConfig, jsOrRat, DEFAULTS.extractThreshold]

/-- C3 counterexample: constructing a client with the explicitly
supplied url `""` does not preserve it — getConfig returns the default
URL instead. -/
theorem configRoundTrip_counterexample :
    (Permem.new ⟨some "", none, none, none⟩).getConfig.url = "http://localhost:3333" ∧
    (Permem.new ⟨some "", none, none, none⟩).getConfig.url ≠ "" :=
  ⟨rfl, by decide⟩

/-- C3 (amended): reading the configuration back through getConfig
returns the defaults (url "http://localhost:3333", maxContextLength
8000, extractThreshold 0.7, apiKey passed through) for omitted fields,
and preserves explicitly supplied url, maxContextLength and
extractThreshold exactly whenever they are truthy (non-empty, nonzero);
falsy supplied values fall back to the defaults. -/
theorem configRoundTrip_amended (c : PermemConfig) :
    (Permem.new c).getConfig.apiKey = c.apiKey ∧
    ((c.url = none ∨ c.url = some "") →
      (Permem.new c).getConfig.url = "http://localhost:3333") ∧
    (∀ u : String, c.url = some u → u ≠ "" →
      (Permem.new c).getConfig.url = u) ∧
    ((c.maxContextLength = none ∨ c.maxContextLength = some 0) →
      (Permem.new c).getConfig.maxContextLength = 8000) ∧
    (∀ m : Nat, c.maxContextLength = some m → m ≠ 0 →
      (Permem.new c).getConfig.maxContextLength = m) ∧
    ((c.extractThreshold = none ∨ c.extractThreshold = some 0) →
      (Permem.new c).getConfig.extractThreshold = 7 / 10) ∧
    (∀ t : ℚ, c.extractThreshold = some t → t ≠ 0 →
      (Permem.new c).getConfig.extractThreshold = t) := by
  refine ⟨rfl, ?_, ?_, ?_, ?_, ?_, ?_⟩
  · rintro (h | h) <;>
      simp [Permem.new, Permem.getConfig, resolveConfig, jsOrStr, h, DEFAULTS.url]
  · intro u hu hu'
    simp [Permem.new, Permem.getConfig, resolveConfig, jsOrStr, hu, hu']
  · rintro (h | h) <;>
      simp [Permem.new, Permem.getConfig, resolveConfig, jsOrNat, h,
        DEFAULTS.maxContextLength]
  · intro m hm hm'
    simp [Permem.new, Permem.getConfig, resolveConfig, jsOrNat, hm, hm']
  · rintro (h | h) <;>
      simp [Permem.new, Permem.getConfig, resolveConfig, jsOrRat, h,
        DEFAULTS.extractThreshold]
  · intro t ht ht'
    simp [Permem.new, Permem.getConfig, resolveConfig, jsOrRat, ht, ht']

/-- Witness for the amended round-trip theorem at two concrete mixed
configurations: one with a truthy url, an omitted maxContextLength and
a falsy extractThreshold, and one with a falsy url and a truthy
maxContextLength. -/
theorem configRoundTrip_amended_w :
    (Permem.new ⟨some "https://api.example.com", some "secret-key",
        none, some 0⟩).getConfig.url = "https://api.example.com" ∧
    (Permem.new ⟨some "https://api.example.com", some "secret-key",
        none, some 0⟩).getConfig.apiKey = some "secret-key" ∧
    (Permem.new ⟨some "https://api.example.com", some "secret-key",
        none, some 0⟩).getConfig.maxContextLength = 8000 ∧
    (Permem.new ⟨some "https://api.example.com", some "secret-key",
        none, some 0⟩).getConfig.extractThreshold = 7 / 10 ∧
    (Permem.new ⟨some "", none, some 4000, none⟩).getConfig.url =
      "http://localhost:3333" ∧
    (Permem.new ⟨some "", none, some 4000, none⟩).getConfig.maxContextLength =
      4000 :=
  ⟨(configRoundTrip_amended
      ⟨some "https://api.example.com", some "secret-key", none, some 0⟩).2.2.1
      "https://api.example.com" rfl (by decide),
   (configRoundTrip_amended
      ⟨some "https://api.example.com", some "secret-key", none, some 0⟩).1,
   (configRoundTrip_amended
      ⟨some "https://api.example.com", some "secret-key", none, some 0⟩).2.2.2.1
      (Or.inl rfl),
   (configRoundTrip_amended
      ⟨some "https://api.example.com", some "secret-key", none, some 0⟩).2.2.2.2.2.1
      (Or.inr rfl),
   (configRoundTrip_amended ⟨some "", none, some 4000, none⟩).2.1 (Or.inr rfl),
   (configRoundTrip_amended ⟨some "", none, some 4000, none⟩).2.2.2.2.1
      4000 rfl (by decide)⟩

/-- C2: health() is a total boolean function of the fetch outcome — it
never throws; it returns true exactly when the request succeeds with a
response whose status field is "ok", and a thrown transport error yields
false. -/
theorem healthRun_true_iff_ok :
    (∀ out : FetchOutcome HealthRaw,
      (Permem.healthRun out = true ↔ Permem.request out = .ok ⟨"ok"⟩)) ∧
    (∀ e : String, Permem.healthRun (.fetchThrow e) = false) := by
  constructor
  · intro out
    unfold Permem.healthRun
    cases h : Permem.request (α := HealthRaw) out with
    | ok r =>
      cases r with
      | mk s => simp
    | error f => simp
  · intro e
    rfl

/-- Witness for the health theorem: a 200 response with status "ok"
yields true, and a thrown connection error yields false. -/
theorem healthRun_true_iff_ok_w :
    Permem.healthRun (.resp 200 (.json ⟨"ok"⟩ none)) = true ∧
    Permem.healthRun (.fetchThrow "connection refused") = false :=
  ⟨(healthRun_true_iff_ok.1 (.resp 200 (.json ⟨"ok"⟩ none))).mpr rfl,
   healthRun_true_iff_ok.2 "connection refused"⟩

/-- C1 counterexample: on a mocked 404 response with an unparsable body,
recall fails with message "Unknown error" — not "HTTP 404" as the claim
states for the unparsable case. -/
theorem errorClassification_counterexample :
    Permem.recallRun (.resp 404 .unparsable) =
      .error (.classified ⟨"Unknown error", some 404⟩) ∧
    ("Unknown error" : String) ≠ "HTTP 404" :=
  ⟨rfl, by decide⟩

/-- C1 (amended): for every operation except health(), a non-2xx
response fails with a classified PermemError whose statusCode is the
HTTP status and whose message is the body's error field when the body
parses as JSON with a non-empty error field, the fixed string
"Unknown error" when the body is unparsable, and "HTTP <status>" when
the body parses without a (non-empty) error field. -/
theorem errorClassification_amended (status : Nat) (h : responseOk status = false) :
    (∀ (α : Type) (body : ParsedBody α),
      Permem.request (.resp status body) =
        .error (.classified ⟨classifiedMessage status body, some status⟩)) ∧
    (∀ body : ParsedBody MemorizeRaw,
      Permem.memorizeRun (.resp status body) =
        .error (.classified ⟨classifiedMessage status body, some status⟩)) ∧
    (∀ body : ParsedBody RecallRaw,
      Permem.recallRun (.resp status body) =
        .error (.classified ⟨classifiedMessage status body, some status⟩)) ∧
    (∀ body : ParsedBody InjectResponse,
      Permem.injectRun (.resp status body) =
        .error (.classified ⟨classifiedMessage status body, some status⟩)) ∧
    (∀ body : ParsedBody ExtractResponse,
      Permem.extractRun (.resp status body) =
        .error (.classified ⟨classifiedMessage status body, some status⟩)) := by
  have key : ∀ (α : Type) (body : ParsedBody α),
      Permem.request (.resp status body) =
        .error (.classified ⟨classifiedMessage status body, some status⟩) := by
    intro α body
    simp only [Permem.request, h]
    cases body with
    | json payload e =>
      cases e with
      | none => simp [classifiedMessage, jsOrStr]
      | some s => by_cases hs : s = "" <;> simp [classifiedMessage, jsOrStr, hs]
    | unparsable => simp [classifiedMessage, jsOrStr]
  refine ⟨key, fun body => ?_, fun body => ?_, fun body => ?_, fun body => ?_⟩
  · unfold Permem.memorizeRun
    rw [key]
    rfl
  · unfold Permem.recallRun
    rw [key]
    rfl
  · exact key InjectResponse body
  · exact key ExtractResponse body

/-- Witness for the amended error-classification theorem: a 404 with
body containing an error field "User not found" makes recall fail with
exactly that message and status code 404. -/
theorem errorClassification_amended_w :
    Permem.recallRun (.resp 404 (.json (⟨[]⟩ : RecallRaw) (some "User not found"))) =
      .error (.classified ⟨"User not found", some 404⟩) := by
  have h := (errorClassification_amended 404 (by decide)).2.2.1
    (ParsedBody.json ⟨[]⟩ (some "User not found"))
  rw [h]
  rfl

/-- C5 counterexample: with an explicitly supplied contextLength of 0
and a four-character message, extract sends the token estimate 1, not
the supplied 0. -/
theorem extractContextLength_counterexample :
    ((Permem.new ⟨none, none, none, none⟩).extractBody
        [⟨"user", "abcd"⟩] ⟨"u", some 0, none, none, none⟩).contextLength = 1 ∧
    (1 : Nat) ≠ 0 :=
  ⟨rfl, by decide⟩

/-- C5 (amended): the extract request body's contextLength equals the
caller-supplied contextLength whenever it is nonzero; when contextLength
is omitted — or supplied as the falsy 0 — it equals the ceiling of the
length of the message contents joined by a single space divided by 4. -/
theorem extractContextLength_amended (p : Permem) (messages : List ChatMessage)
    (uid : String) (cid : Option String) (t : Option ℚ) (a : Option Bool) :
    (p.extractBody messages ⟨uid, none, cid, t, a⟩).contextLength =
      ceilDiv4 (String.intercalate " " (messages.map ChatMessage.content)).length ∧
    (p.extractBody messages ⟨uid, some 0, cid, t, a⟩).contextLength =
      ceilDiv4 (String.intercalate " " (messages.map ChatMessage.content)).length ∧
    (∀ m : Nat,
      (p.extractBody messages ⟨uid, some (m + 1), cid, t, a⟩).contextLength = m + 1) :=
  ⟨estimateTokens_eq_ceilDiv4 messages, estimateTokens_eq_ceilDiv4 messages,
   fun m => rfl⟩

/-- C6: a transport-level failure (the underlying fetch throwing) is
propagated unchanged by all four data operations — it is not converted
into a classified error and carries no status code. -/
theorem transportFailure_propagates (e : String) :
    Permem.memorizeRun (.fetchThrow e) = .error (.transport e) ∧
    Permem.recallRun (.fetchThrow e) = .error (.transport e) ∧
    Permem.injectRun (.fetchThrow e) = .error (.transport e) ∧
    Permem.extractRun (.fetchThrow e) = .error (.transport e) :=
  ⟨rfl, rfl, rfl, rfl⟩

/-- C7: a successful memorize call maps the raw response so that stored,
count and duplicates copy stored / stored_count / duplicates, and
memories is the order-preserving image of exactly those result entries
whose memory payload is present. -/
theorem memorizeMapping (raw : MemorizeRaw) :
    Permem.memorizeRun (.resp 200 (.json raw none)) = .ok (memorizeMap raw) ∧
    (memorizeMap raw).stored = raw.stored ∧
    (memorizeMap raw).count = raw.stored_count ∧
    (memorizeMap raw).duplicates = raw.duplicates ∧
    (memorizeMap raw).memories =
      (raw.results.filter (fun r => r.memory.isSome)).map (fun r =>
        ⟨(r.memory.getD ⟨"", "", ""⟩).id, (r.memory.getD ⟨"", "", ""⟩).summary,
         (r.memory.getD ⟨"", "", ""⟩).type, r.action⟩) :=
  ⟨rfl, rfl, jsOrInt_zero raw.stored_count, jsOrInt_zero raw.duplicates,
   filterMap_results raw.results⟩

/-- C8: memorize(C, {userId: U}) issues exactly one POST request to
/v1/memories whose body's content is C, userId is U, and async is false
when the async option is omitted. -/
theorem memorizeRequest_shape (p : Permem) (content uid : String)
    (cid : Option String) :
    p.memorizeRequests content ⟨uid, cid, none⟩ =
      [p.memorizeReq content ⟨uid, cid, none⟩] ∧
    (p.memorizeReq content ⟨uid, cid, none⟩).method = "POST" ∧
    (p.memorizeReq content ⟨uid, cid, none⟩).url = p.config.url ++ "/v1/memories" ∧
    (p.memorizeReq content ⟨uid, cid, none⟩).body = some ⟨content, uid, cid, false⟩ :=
  ⟨rfl, rfl, rfl, rfl⟩

/-- C9: recall(Q, {userId: U, limit: 5, mode: "balanced"}) issues
exactly one GET request whose query string is the form-encoded
q=<enc Q>&userId=<enc U>&limit=5&mode=balanced, and a successful call
returns the response's memories list verbatim, with no local filtering
or reinterpretation of mode. -/
theorem recallRequest_shape (p : Permem) (q u : String) :
    p.recallRequests q ⟨u, some 5, some "balanced", none⟩ =
      [p.recallReq q ⟨u, some 5, some "balanced", none⟩] ∧
    (p.recallReq q ⟨u, some 5, some "balanced", none⟩).method = "GET" ∧
    (p.recallReq q ⟨u, some 5, some "balanced", none⟩).url =
      p.config.url ++ "/v1/memories/search?" ++
        (("q=" ++ encodeForm q) ++ "&" ++ ("userId=" ++ encodeForm u) ++ "&" ++
          "limit=5" ++ "&" ++ "mode=balanced") ∧
    (∀ raw : RecallRaw,
      Permem.recallRun (.resp 200 (.json raw none)) = .ok ⟨raw.memories⟩) :=
  ⟨rfl, rfl, rfl, fun raw => rfl⟩

/-- C10: the inject request body's contextLength is the caller-supplied
value (0 when omitted) and its maxContextLength is the client's resolved
maxContextLength (8000 when unset at construction), and the result is
the server response verbatim — shouldInject is never overridden. -/
theorem injectRequest_shape (p : Permem) (msg : String) (o : InjectOptions) :
    (p.injectReq msg o).body = some (p.injectBody msg o) ∧
    (p.injectBody msg o).contextLength = o.contextLength.getD 0 ∧
    (p.injectBody msg o).maxContextLength = p.config.maxContextLength ∧
    (∀ (u k : Option String) (t : Option ℚ),
      (Permem.new ⟨u, k, none, t⟩).config.maxContextLength = 8000) ∧
    (∀ raw : InjectResponse,
      Permem.injectRun (.resp 200 (.json raw none)) = .ok raw) :=
  ⟨rfl, jsOrNat_getD o.contextLength, rfl, fun u k t => rfl, fun raw => rfl⟩
